import Mathlib

/-!
Shallow embedding of the vaka reactive-state library
(source: src/unnamed/part_001, the most complete variant of the module).

Modelling conventions:
* JS values are the inductive Value: undefined, string primitives,
  references to plain (non-reactive) heap objects, and references to
  reactive proxies (wrappers).
* Module-level WeakMaps (proxy_to_bindings_map, element_lookup) and the
  backing storage of every proxy live in one explicit state record Sys.
* Watcher functions are identified by WatcherId; their behaviour is an
  environment function WatcherId -> old -> new -> WatcherRet.  Returning
  the REJECT_CHANGE sentinel is WatcherRet.reject, returning undefined is
  WatcherRet.ret Value.undefined (a no-op per the code), any other return
  is WatcherRet.ret v, and a thrown exception is WatcherRet.throws.
* DOM elements are opaque TargetIds; document.getElementById, the
  HTMLElement and HTMLInputElement instanceof checks are environment
  functions.  update_target renders externally; the model records it as a
  bindingUpdate event rather than mutating DOM state.
* A write through the proxy set trap produces a SetResult: the new Sys,
  the ordered trace of observable events (watcher invocations with their
  argument values, binding renders, the storage commit), and an optional
  propagated error (VakaError panics, or a watcher's own exception).
-/

namespace Vaka

abbrev Key := String
abbrev StateId := Nat
abbrev ObjId := Nat
abbrev TargetId := Nat
abbrev WatcherId := Nat

/-- JS runtime values, as far as the claims need them. -/
inductive Value where
  | undefined
  | prim (s : String)
  | obj (o : ObjId)
  | wrap (p : StateId)
deriving DecidableEq

/-- Result of invoking a watcher: the REJECT_CHANGE sentinel, a thrown
exception, or an ordinary return value (ret Value.undefined is the
"returned undefined / returned nothing" no-op case). -/
inductive WatcherRet where
  | reject
  | throws
  | ret (v : Value)
deriving DecidableEq

/-- Entry of the per-state property registry:
the object created by get_property_state, holding
bindings : Set of bound elements and watchers : Set of watcher callbacks.
JS Sets iterate in insertion order and deduplicate, so both are lists kept
duplicate-free by setAdd. -/
structure PropState where
  bindings : List TargetId
  watchers : List WatcherId
deriving DecidableEq

def PropState.empty : PropState := ⟨[], []⟩

/-- The record stored in element_lookup by bind:
attached_handler (abstracted to whether one was attached),
reactive_target and reactive_key. -/
structure BindingRecord where
  attached_handler : Bool
  reactive_target : StateId
  reactive_key : Key
deriving DecidableEq

/-- The whole mutable state of the module:
per-proxy backing storage, proxy_to_bindings_map (registry), the heap of
plain non-reactive objects, and element_lookup. -/
structure Sys where
  storage : StateId → Key → Option Value
  registry : StateId → Option (Key → Option PropState)
  heap : ObjId → Key → Option Value
  element_lookup : TargetId → Option BindingRecord

/-- Errors: the VakaError codes, a watcher's own exception propagating out
of the write pipeline (userException), and a JS TypeError from touching a
member of undefined (typeError). -/
inductive VErr where
  | unsupportedBind
  | nonReactiveState
  | invalidObjectPath (path : String)
  | badProxy
  | duplicateBinding
  | invalidElementId (ident : String)
  | userException
  | typeError
deriving DecidableEq

/-- Observable events of a write through the proxy set trap, in order:
each watcher invocation with the two argument values it received, each
update_target render of a binding, and the final commit to storage. -/
inductive Event where
  | watcherCall (w : WatcherId) (oldArg : Value) (newArg : Value)
  | bindingUpdate (t : TargetId) (v : Value)
  | commit (k : Key) (v : Value)
deriving DecidableEq

/-- External environment: watcher behaviour, document.getElementById, and
the instanceof HTMLElement / HTMLInputElement predicates. -/
structure Env where
  wenv : WatcherId → Value → Value → WatcherRet
  dom : String → Option TargetId
  isElem : TargetId → Bool
  isInput : TargetId → Bool

/-- JS Set.add: append if not already present (insertion order kept). -/
def setAdd {α : Type} [DecidableEq α] (l : List α) (a : α) : List α :=
  if a ∈ l then l else l ++ [a]

def setStorage (sys : Sys) (p : StateId) (k : Key) (v : Value) : Sys :=
  { sys with storage := fun q k' => if q = p ∧ k' = k then some v else sys.storage q k' }

def setHeap (sys : Sys) (o : ObjId) (k : Key) (v : Value) : Sys :=
  { sys with heap := fun o' k' => if o' = o ∧ k' = k then some v else sys.heap o' k' }

def addRegistry (sys : Sys) (p : StateId) : Sys :=
  { sys with registry := fun q => if q = p then some (fun _ => none) else sys.registry q }

/-- String.prototype.split with the single-character separator the source
uses: property.split period.  Structural over the character list so it
evaluates; agrees with JS split for a one-character separator
(empty string splits to a list holding one empty string, etc.). -/
def splitDotsAux : List Char → List Char → List String
  | [], acc => [String.mk acc.reverse]
  | c :: rest, acc =>
    if c = '.' then String.mk acc.reverse :: splitDotsAux rest []
    else splitDotsAux rest (c :: acc)

def splitDots (s : String) : List String := splitDotsAux s.data []

/-- hasOwnProperty on a container value.  Proxies forward has/get to their
backing storage (only set is trapped); plain objects use the heap;
primitives and undefined are modelled as owning no properties. -/
def hasOwn (sys : Sys) (v : Value) (k : Key) : Bool :=
  match v with
  | .wrap p => (sys.storage p k).isSome
  | .obj o => (sys.heap o k).isSome
  | _ => false

/-- Property read on a container value (default proxy get forwards to the
backing storage). -/
def getMember (sys : Sys) (v : Value) (k : Key) : Value :=
  match v with
  | .wrap p => (sys.storage p k).getD .undefined
  | .obj o => (sys.heap o k).getD .undefined
  | _ => .undefined

/-- The loop inside resolve_object_property: walk every segment except the
last, panicking with ERR_INVALID_OBJECT_PATH carrying the original full
path when a segment is not an own property of the current container. -/
def walkPath (sys : Sys) (property : String) : Value → List Key → Except VErr Value
  | base, [] => .ok base
  | base, part :: rest =>
    if hasOwn sys base part then walkPath sys property (getMember sys base part) rest
    else .error (.invalidObjectPath property)

/-- resolve_object_property from the source: split the path on dots, walk
all but the last segment, return the final container with the last
segment as leaf key. -/
def resolveState (sys : Sys) (target : Value) (property : String) :
    Except VErr (Value × Key) :=
  let parts := splitDots property
  match walkPath sys property target parts.dropLast with
  | .ok base => .ok (base, parts.getLastD "")
  | .error e => .error e

/-- get_property_state: read the registry entry for a key, substituting a
fresh empty record when absent (the caller also inserts it, see setTrap
and the bind and watch operations). -/
def getPropState (meta : Key → Option PropState) (k : Key) : PropState :=
  (meta k).getD PropState.empty

/-- The watchers loop of the set trap.  Every watcher is invoked with
(target[property], value) — the pre-write stored value and the originally
assigned value; the accumulated new_value is not passed on.  REJECT_CHANGE
resets new_value to the pre-write value, a non-undefined return replaces
new_value, a thrown exception aborts the whole write.  Returns the final
new_value, the trace of watcher invocations, and the propagated error. -/
def runWatchers (env : Env) (oldVal : Value) (origVal : Value) :
    List WatcherId → Value → (Value × List Event × Option VErr)
  | [], nv => (nv, [], none)
  | w :: ws, nv =>
    let e := Event.watcherCall w oldVal origVal
    match env.wenv w oldVal origVal with
    | .throws => (nv, [e], some .userException)
    | .reject =>
      let r := runWatchers env oldVal origVal ws oldVal
      (r.1, e :: r.2.1, r.2.2)
    | .ret rv =>
      let nv' := if rv = Value.undefined then nv else rv
      let r := runWatchers env oldVal origVal ws nv'
      (r.1, e :: r.2.1, r.2.2)

/-- Result of a write through the proxy set trap: the mutated module
state, the ordered event trace, and an optional propagated error. -/
structure SetResult where
  sys : Sys
  events : List Event
  error : Option VErr

/-- proxy_handlers.set from the source.  Looks up the registry for the
receiver (ERR_BAD_PROXY when absent), lazily creates the property entry,
runs the watcher loop on the pre-write stored value and the assigned
value, then renders new_value to every binding via update_target, and
only afterwards commits new_value to the backing storage. -/
def setTrap (env : Env) (sys : Sys) (p : StateId) (k : Key) (v : Value) : SetResult :=
  match sys.registry p with
  | none => ⟨sys, [], some .badProxy⟩
  | some meta =>
    let ps := getPropState meta k
    let meta' := fun k' => if k' = k then some ps else meta k'
    let sys1 := { sys with registry := fun q => if q = p then some meta' else sys.registry q }
    let oldVal := (sys.storage p k).getD .undefined
    let r := runWatchers env oldVal v ps.watchers v
    match r.2.2 with
    | some e => ⟨sys1, r.2.1, some e⟩
    | none =>
      let bes := ps.bindings.map (fun t => Event.bindingUpdate t r.1)
      ⟨setStorage sys1 p k r.1, r.2.1 ++ bes ++ [Event.commit k r.1], none⟩

/-- Argument of bind and unbind: a target handle, or a string identifier
resolved through document.getElementById. -/
inductive BindTarget where
  | el (t : TargetId)
  | strId (s : String)

/-- The element-or-identifier prologue shared by bind and unbind:
a string is resolved via document.getElementById, panicking with
ERR_INVALID_ELEMENT_ID carrying the identifier when no element matches. -/
def resolveTarget (env : Env) (tgt : BindTarget) : Except VErr TargetId :=
  match tgt with
  | .el t => .ok t
  | .strId s =>
    match env.dom s with
    | none => .error (.invalidElementId s)
    | some t => .ok t

/-- bind from the source.  After the identifier prologue: panic
ERR_UNSUPPORTED_BIND unless the target is an HTMLElement, panic
ERR_DUPLICATE_BINDING when element_lookup already holds a record for it,
resolve the property path, panic ERR_NON_REACTIVE_STATE when the resolved
container has no registry, render the current value (external, not
modelled as state), attach an input handler for input elements, add the
element to the binding set, and store the element_lookup record. -/
def bind (env : Env) (sys : Sys) (tgt : BindTarget) (stateV : Value) (property : String) :
    Except VErr Sys :=
  match resolveTarget env tgt with
  | .error e => .error e
  | .ok t =>
    if env.isElem t then
      if (sys.element_lookup t).isSome then .error .duplicateBinding
      else
        match resolveState sys stateV property with
        | .error e => .error e
        | .ok (base, key) =>
          match base with
          | .wrap p =>
            match sys.registry p with
            | none => .error .nonReactiveState
            | some meta =>
              let record : BindingRecord := ⟨env.isInput t, p, key⟩
              let ps := getPropState meta key
              let ps' : PropState := ⟨setAdd ps.bindings t, ps.watchers⟩
              let meta' := fun k' => if k' = key then some ps' else meta k'
              let sys1 := { sys with registry := fun q => if q = p then some meta' else sys.registry q }
              .ok { sys1 with element_lookup := fun t' =>
                      if t' = t then some record else sys1.element_lookup t' }
          | _ => .error .nonReactiveState
    else .error .unsupportedBind

/-- unbind from the source.  After the identifier prologue: silently
return when element_lookup has no record; otherwise detach the input
handler and delete the element from the binding set recorded for it.
The element_lookup record itself is NOT deleted — a faithful rendering of
the source, which never calls element_lookup.delete. -/
def unbind (env : Env) (sys : Sys) (tgt : BindTarget) : Except VErr Sys :=
  match resolveTarget env tgt with
  | .error e => .error e
  | .ok t =>
    match sys.element_lookup t with
    | none => .ok sys
    | some record =>
      match sys.registry record.reactive_target with
      | none => .error .typeError
      | some meta =>
        match meta record.reactive_key with
        | none => .error .typeError
        | some ps =>
          let ps' : PropState := ⟨ps.bindings.erase t, ps.watchers⟩
          let meta' := fun k' => if k' = record.reactive_key then some ps' else meta k'
          .ok { sys with registry := fun q =>
                  if q = record.reactive_target then some meta' else sys.registry q }

/-- watch from the source: resolve the property path, panic
ERR_NON_REACTIVE_STATE when the resolved container has no registry, and
Set.add the callback to the watcher set for the leaf key. -/
def watch (sys : Sys) (stateV : Value) (property : String) (w : WatcherId) :
    Except VErr Sys :=
  match resolveState sys stateV property with
  | .error e => .error e
  | .ok (base, key) =>
    match base with
    | .wrap p =>
      match sys.registry p with
      | none => .error .nonReactiveState
      | some meta =>
        let ps := getPropState meta key
        let ps' : PropState := ⟨ps.bindings, setAdd ps.watchers w⟩
        let meta' := fun k' => if k' = key then some ps' else meta k'
        .ok { sys with registry := fun q => if q = p then some meta' else sys.registry q }
    | _ => .error .nonReactiveState

mutual
/-- Construction-time literal values handed to reactive: string leaves
and nested object nodes. -/
inductive PlainVal where
  | prim (s : String)
  | pobj (fields : PlainFields)
/-- Ordered field list of a construction-time object literal. -/
inductive PlainFields where
  | nil
  | cons (k : Key) (v : PlainVal) (rest : PlainFields)
end

mutual
/-- Value part of reactive: a string stays as is; an object literal is
wrapped — allocate a fresh proxy id, create its registry entry, then fill
its fields (reactive replaces nested object fields with reactive proxies
recursively). -/
def reactiveVal (sys : Sys) (fresh : Nat) : PlainVal → (Sys × Nat × Value)
  | .prim s => (sys, fresh, .prim s)
  | .pobj fs =>
    let p := fresh
    let r := fillFields p (addRegistry sys p) (fresh + 1) fs
    (r.1, r.2, .wrap p)

/-- Field loop of reactive: store each field, recursively wrapping the
object-valued ones. -/
def fillFields (p : StateId) (sys : Sys) (fresh : Nat) : PlainFields → (Sys × Nat)
  | .nil => (sys, fresh)
  | .cons k v rest =>
    let r := reactiveVal sys fresh v
    fillFields p (setStorage r.1 p k r.2.2) r.2.1 rest
end

/-- reactive from the source, on a top-level object literal: returns the
mutated module state, the next fresh proxy id, and the wrapper's id. -/
def mkReactive (sys : Sys) (fresh : Nat) (fields : PlainFields) : Sys × Nat × StateId :=
  let r := reactiveVal sys fresh (.pobj fields)
  match r.2.2 with
  | .wrap p => (r.1, r.2.1, p)
  | _ => (r.1, r.2.1, fresh)

/-- A nested write S[k].x = v as JS executes it: the read of S[k] goes
through the default proxy get (backing storage); if the result is itself
a proxy, the write runs its set trap; if it is a plain object, the write
is an ordinary un-intercepted heap store producing no events; writing a
property of undefined or of a primitive is a TypeError in strict mode. -/
def assignThrough (env : Env) (sys : Sys) (p : StateId) (k : Key) (x : Key) (v : Value) :
    SetResult :=
  match (sys.storage p k).getD .undefined with
  | .wrap q => setTrap env sys q x v
  | .obj o => ⟨setHeap sys o x v, [], none⟩
  | _ => ⟨sys, [], some .typeError⟩

/-- Watchers registered on property k of proxy p. -/
def watchersOf (sys : Sys) (p : StateId) (k : Key) : List WatcherId :=
  match sys.registry p with
  | some meta => (getPropState meta k).watchers
  | none => []

/-- Bindings registered on property k of proxy p. -/
def bindingsOf (sys : Sys) (p : StateId) (k : Key) : List TargetId :=
  match sys.registry p with
  | some meta => (getPropState meta k).bindings
  | none => []

/-- The empty module state: nothing wrapped, nothing bound. -/
def sys0 : Sys := ⟨fun _ _ => none, fun _ => none, fun _ _ => none, fun _ => none⟩

/-- The walk of the path resolver, written from the spec's own words: walk
each segment, requiring it to be an own property of the current
container, descending one step per segment; none when a segment is
absent.  Used as the specification side of the path-resolution claim. -/
def specWalk (sys : Sys) : Value → List Key → Option Value
  | base, [] => some base
  | base, part :: rest =>
    if hasOwn sys base part then specWalk sys (getMember sys base part) rest
    else none

/-- Recogniser for commit events. -/
def isCommit : Event → Bool
  | .commit _ _ => true
  | _ => false

/-- Recogniser for binding-render events. -/
def isBindingUpdate : Event → Bool
  | .bindingUpdate _ _ => true
  | _ => false

/-- Recogniser for invocations of a particular watcher. -/
def isCallOf (w : WatcherId) : Event → Bool
  | .watcherCall w' _ _ => w' == w
  | _ => false

/-- Whether the first commit event of a trace comes before the first
binding-render event (vacuously true when either is missing).  A
successful write emits exactly one commit, so this says the storage
commit precedes every binding update. -/
def commitBeforeBindings (es : List Event) : Bool :=
  match es.findIdx? isCommit, es.findIdx? isBindingUpdate with
  | some ci, some bi => decide (ci < bi)
  | _, _ => true

/-- A fixed environment for concrete scenarios: no watcher does anything,
no identifiers resolve, every handle is an HTMLElement and none is an
input element. -/
def idEnv : Env := ⟨fun _ _ _ => .ret .undefined, fun _ => none, fun _ => true, fun _ => false⟩

/-- A small reactive module state for concrete scenarios: one wrapper
(id 0) with an empty registry and one stored property k = "x". -/
def sampleSys : Sys :=
  { storage := fun p k => if p = 0 ∧ k = "k" then some (.prim "x") else none,
    registry := fun p => if p = 0 then some (fun _ => none) else none,
    heap := fun _ _ => none,
    element_lookup := fun _ => none }

/-- A module state in which target handle 3 already holds a binding
record for property k of wrapper 0. -/
def boundSys : Sys :=
  { storage := fun p k => if p = 0 ∧ k = "k" then some (.prim "x") else none,
    registry := fun p =>
      if p = 0 then some (fun k => if k = "k" then some ⟨[3], []⟩ else none) else none,
    heap := fun _ _ => none,
    element_lookup := fun t => if t = 3 then some ⟨false, 0, "k"⟩ else none }

/-! Helper lemmas about the embedded operations. -/

/-- Every event the watcher loop emits is a watcher invocation carrying
the pre-write stored value and the originally assigned value. -/
theorem runWatchers_events_shape (env : Env) (o g : Value) :
    ∀ (ws : List WatcherId) (nv : Value) (e : Event),
      e ∈ (runWatchers env o g ws nv).2.1 → ∃ w, e = Event.watcherCall w o g := by
  intro ws
  induction ws with
  | nil => intro nv e he; simp [runWatchers] at he
  | cons w ws ih =>
    intro nv e he
    rcases hw : env.wenv w o g with _ | _ | rv
    · simp [runWatchers, hw] at he
      rcases he with he | he
      · exact ⟨w, he⟩
      · exact ih _ _ he
    · simp [runWatchers, hw] at he
      exact ⟨w, he⟩
    · simp [runWatchers, hw] at he
      rcases he with he | he
      · exact ⟨w, he⟩
      · exact ih _ _ he

/-- If some watcher of the list throws on the fixed argument pair, the
watcher loop reports the propagated exception. -/
theorem runWatchers_throws (env : Env) (o g : Value) :
    ∀ (ws : List WatcherId) (nv : Value),
      (∃ w ∈ ws, env.wenv w o g = .throws) →
      (runWatchers env o g ws nv).2.2 = some .userException := by
  intro ws
  induction ws with
  | nil => intro nv h; simp at h
  | cons w ws ih =>
    intro nv h
    rcases h with ⟨w0, hmem, hth⟩
    rcases hw : env.wenv w o g with _ | _ | rv
    · rcases List.mem_cons.mp hmem with h0 | h0
      · subst h0; rw [hw] at hth; exact absurd hth (by simp)
      · simp [runWatchers, hw]; exact ih _ ⟨w0, h0, hth⟩
    · simp [runWatchers, hw]
    · rcases List.mem_cons.mp hmem with h0 | h0
      · subst h0; rw [hw] at hth; exact absurd hth (by simp)
      · simp [runWatchers, hw]; exact ih _ ⟨w0, h0, hth⟩

/-- The path walk only reads storage and heap, so it is unchanged by
updates to the registry or the element table. -/
theorem walkPath_congr (sys1 sys2 : Sys) (property : String)
    (hs : sys1.storage = sys2.storage) (hh : sys1.heap = sys2.heap) :
    ∀ (l : List Key) (b : Value),
      walkPath sys1 property b l = walkPath sys2 property b l := by
  intro l
  induction l with
  | nil => intro b; rfl
  | cons part rest ih =>
    intro b
    have hown : hasOwn sys1 b part = hasOwn sys2 b part := by
      cases b <;> simp [hasOwn, hs, hh]
    have hget : getMember sys1 b part = getMember sys2 b part := by
      cases b <;> simp [getMember, hs, hh]
    simp only [walkPath, hown, hget]
    by_cases h : hasOwn sys2 b part = true
    · simp [h, ih]
    · simp [h]

/-- Path resolution only reads storage and heap. -/
theorem resolveState_congr (sys1 sys2 : Sys) (root : Value) (property : String)
    (hs : sys1.storage = sys2.storage) (hh : sys1.heap = sys2.heap) :
    resolveState sys1 root property = resolveState sys2 root property := by
  simp only [resolveState, walkPath_congr sys1 sys2 property hs hh]

/-- The implementation walk agrees with the spec-side walk, failing with
the original full path exactly when the spec-side walk fails. -/
theorem walkPath_eq_specWalk (sys : Sys) (property : String) :
    ∀ (l : List Key) (b : Value),
      walkPath sys property b l =
        (match specWalk sys b l with
         | some c => Except.ok c
         | none => Except.error (.invalidObjectPath property)) := by
  intro l
  induction l with
  | nil => intro b; rfl
  | cons part rest ih =>
    intro b
    by_cases h : hasOwn sys b part = true
    · simp [walkPath, specWalk, h, ih]
    · simp [walkPath, specWalk, h]

/-! Claim theorems. -/

/-- Claim C8: the path resolver walks every segment except the last,
fails with InvalidObjectPath carrying the original full path string
whenever an intermediate segment is not an own property of the current
container, and otherwise returns the final container with the last
segment as leaf key, never touching the leaf; a path that splits to a
single segment (no dot) resolves to the root with the whole string as
key, with zero walk iterations. -/
theorem resolve_object_property_contract (sys : Sys) (root : Value) (property : String) :
    (resolveState sys root property =
      (match specWalk sys root ((splitDots property).dropLast) with
       | some c => Except.ok (c, (splitDots property).getLastD "")
       | none => Except.error (.invalidObjectPath property))) ∧
    (splitDots property = [property] →
      resolveState sys root property = .ok (root, property)) := by
  constructor
  · simp only [resolveState, walkPath_eq_specWalk]
    cases specWalk sys root ((splitDots property).dropLast) <;> rfl
  · intro h
    simp [resolveState, h, walkPath]

/-- Witness for C8: a dot-free path resolves to the root paired with the
whole string. -/
theorem resolve_object_property_contract_witness :
    splitDots "foo" = ["foo"] ∧
    resolveState sampleSys (.wrap 0) "foo" = .ok (.wrap 0, "foo") :=
  ⟨rfl, (resolve_object_property_contract sampleSys (.wrap 0) "foo").2 rfl⟩

/-- Claim C10: unbind called with a string identifier that resolves to no
element throws InvalidElementIdentifier carrying the identifier; a
never-bound target handle returns silently with the state unchanged. -/
theorem unbind_unknown_identifier_raises
    (env : Env) (sys : Sys) (s : String) (t : TargetId)
    (hdom : env.dom s = none)
    (hnb : sys.element_lookup t = none) :
    unbind env sys (.strId s) = .error (.invalidElementId s) ∧
    unbind env sys (.el t) = .ok sys := by
  constructor
  · simp [unbind, resolveTarget, hdom]
  · simp [unbind, resolveTarget, hnb]

/-- Witness for C10: the identifier "missing" resolves to nothing and
unbind throws; handle 3 was never bound and unbind is a no-op. -/
theorem unbind_unknown_identifier_raises_witness :
    idEnv.dom "missing" = none ∧
    sampleSys.element_lookup 3 = none ∧
    unbind idEnv sampleSys (.strId "missing") = .error (.invalidElementId "missing") ∧
    unbind idEnv sampleSys (.el 3) = .ok sampleSys :=
  ⟨rfl, rfl,
   (unbind_unknown_identifier_raises idEnv sampleSys "missing" 3 rfl rfl).1,
   (unbind_unknown_identifier_raises idEnv sampleSys "missing" 3 rfl rfl).2⟩

/-- Claim C4: when a target handle already has an element_lookup record,
bind fails with DuplicateBinding for every state argument and every path,
before the path is even resolved; no replacement binding is installed. -/
theorem bind_duplicate_binding
    (env : Env) (sys : Sys) (t : TargetId) (r : BindingRecord)
    (helem : env.isElem t = true)
    (hrec : sys.element_lookup t = some r) :
    ∀ (stateV : Value) (property : String),
      bind env sys (.el t) stateV property = .error .duplicateBinding := by
  intro stateV property
  simp [bind, resolveTarget, helem, hrec]

/-- Witness for C4: handle 3 is recorded as bound; binding it to a
different wrapper and path still throws DuplicateBinding. -/
theorem bind_duplicate_binding_witness :
    idEnv.isElem 3 = true ∧
    boundSys.element_lookup 3 = some ⟨false, 0, "k"⟩ ∧
    bind idEnv boundSys (.el 3) (.wrap 9) "other.path" = .error .duplicateBinding :=
  ⟨rfl, rfl, bind_duplicate_binding idEnv boundSys 3 ⟨false, 0, "k"⟩ rfl rfl (.wrap 9) "other.path"⟩

/-- A module state with two watchers, ids 0 then 1 in registration order,
on property k of wrapper 0, whose stored value is "init". -/
def twoWatcherSys : Sys :=
  { storage := fun p k => if p = 0 ∧ k = "k" then some (.prim "init") else none,
    registry := fun p =>
      if p = 0 then some (fun k => if k = "k" then some ⟨[], [0, 1]⟩ else none) else none,
    heap := fun _ _ => none,
    element_lookup := fun _ => none }

/-- Watcher 0 replaces the value with "A"; every other watcher is a
no-op. -/
def replaceEnv : Env :=
  ⟨fun w _ _ => if w = 0 then .ret (.prim "A") else .ret .undefined,
   fun _ => none, fun _ => true, fun _ => false⟩

/-- Counterexample for C1: watcher 0 returns the replacement "A", yet
watcher 1 is invoked with the originally assigned "B" as its second
argument, not with "A" — watcher transforms do not compose
left-to-right. -/
theorem second_watcher_gets_original_value_cex :
    (setTrap replaceEnv twoWatcherSys 0 "k" (.prim "B")).events =
      [.watcherCall 0 (.prim "init") (.prim "B"),
       .watcherCall 1 (.prim "init") (.prim "B"),
       .commit "k" (.prim "A")] ∧
    ¬ ((setTrap replaceEnv twoWatcherSys 0 "k" (.prim "B")).events.get? 1 =
        some (.watcherCall 1 (.prim "init") (.prim "A"))) :=
  ⟨rfl, by decide⟩

/-- Claim C1 amended: every watcher invoked by a write receives the
pre-write stored value as its first argument and the originally assigned
value as its second argument; the value produced by earlier watchers is
never passed on to later ones. -/
theorem watcher_args_are_prewrite_and_original
    (env : Env) (sys : Sys) (p : StateId) (k : Key) (v : Value)
    (w : WatcherId) (o n : Value)
    (hmem : Event.watcherCall w o n ∈ (setTrap env sys p k v).events) :
    o = (sys.storage p k).getD .undefined ∧ n = v := by
  rcases hreg : sys.registry p with _ | meta
  · simp [setTrap, hreg] at hmem
  · simp only [setTrap, hreg] at hmem
    rcases herr : (runWatchers env ((sys.storage p k).getD .undefined) v
        (getPropState meta k).watchers v).2.2 with _ | e
    · simp only [herr] at hmem
      simp only [List.mem_append, List.mem_singleton, List.mem_map] at hmem
      rcases hmem with (hmem | hmem) | hmem
      · rcases runWatchers_events_shape env _ v _ _ _ hmem with ⟨w', hw'⟩
        rcases hw' with ⟨rfl, rfl, rfl⟩
        exact ⟨rfl, rfl⟩
      · rcases hmem with ⟨t, _, ht⟩
        exact absurd ht (by simp)
      · exact absurd hmem (by simp)
    · simp only [herr] at hmem
      rcases runWatchers_events_shape env _ v _ _ _ hmem with ⟨w', hw'⟩
      rcases hw' with ⟨rfl, rfl, rfl⟩
      exact ⟨rfl, rfl⟩

/-- Witness for the amended C1: in the two-watcher scenario, watcher 1's
recorded arguments are the pre-write "init" and the assigned "B". -/
theorem watcher_args_are_prewrite_and_original_witness :
    Event.watcherCall 1 (.prim "init") (.prim "B") ∈
      (setTrap replaceEnv twoWatcherSys 0 "k" (.prim "B")).events ∧
    ((.prim "init" : Value) = (twoWatcherSys.storage 0 "k").getD .undefined ∧
     (.prim "B" : Value) = .prim "B") :=
  ⟨by decide,
   watcher_args_are_prewrite_and_original replaceEnv twoWatcherSys 0 "k"
     (.prim "B") 1 (.prim "init") (.prim "B") (by decide)⟩

/-- Claim C2: when the single watcher on a property returns the
REJECT_CHANGE sentinel, the value committed to storage is the pre-write
value, and every binding on the key is rendered with that reverted value
rather than the assigned one. -/
theorem reject_commits_prewrite_and_notifies_reverted
    (env : Env) (sys : Sys) (p : StateId) (k : Key) (v w0 : Value)
    (w : WatcherId) (meta : Key → Option PropState)
    (hreg : sys.registry p = some meta)
    (hw : (getPropState meta k).watchers = [w])
    (hold : sys.storage p k = some w0)
    (hrej : env.wenv w w0 v = .reject) :
    (setTrap env sys p k v).error = none ∧
    (setTrap env sys p k v).sys.storage p k = some w0 ∧
    (∀ t val, Event.bindingUpdate t val ∈ (setTrap env sys p k v).events → val = w0) ∧
    (∀ t, t ∈ (getPropState meta k).bindings →
        Event.bindingUpdate t w0 ∈ (setTrap env sys p k v).events) := by
  have hrun : runWatchers env w0 v [w] v =
      (w0, [Event.watcherCall w w0 v], none) := by
    simp [runWatchers, hrej]
  simp only [setTrap, hreg, hw, hold, Option.getD_some, hrun]
  refine ⟨trivial, ?_, ?_, ?_⟩
  · simp [setStorage]
  · intro t val hmem
    simp only [List.mem_append, List.mem_singleton, List.mem_map,
      List.mem_cons, List.not_mem_nil, or_false] at hmem
    rcases hmem with (hmem | hmem) | hmem
    · exact absurd hmem (by simp)
    · rcases hmem with ⟨t', _, ht⟩
      injection ht with h1 h2
      exact h2.symm
    · exact absurd hmem (by simp)
  · intro t hmem
    simp only [List.mem_append, List.mem_map, List.mem_cons]
    exact Or.inl (Or.inr ⟨t, hmem, rfl⟩)

/-- A module state with one rejecting watcher (id 4) and one binding
(handle 7) on property k of wrapper 0, stored value "old". -/
def rejectSys : Sys :=
  { storage := fun p k => if p = 0 ∧ k = "k" then some (.prim "old") else none,
    registry := fun p =>
      if p = 0 then some (fun k => if k = "k" then some ⟨[7], [4]⟩ else none) else none,
    heap := fun _ _ => none,
    element_lookup := fun _ => none }

/-- Watcher 4 rejects every change; other watchers are no-ops. -/
def rejectEnv : Env :=
  ⟨fun w _ _ => if w = 4 then .reject else .ret .undefined,
   fun _ => none, fun _ => true, fun _ => false⟩

/-- Witness for C2: writing "new" over "old" with a rejecting watcher
commits "old" and renders "old" to the binding. -/
theorem reject_commits_prewrite_witness :
    rejectSys.registry 0 = some (fun k => if k = "k" then some ⟨[7], [4]⟩ else none) ∧
    (setTrap rejectEnv rejectSys 0 "k" (.prim "new")).error = none ∧
    (setTrap rejectEnv rejectSys 0 "k" (.prim "new")).sys.storage 0 "k" = some (.prim "old") ∧
    Event.bindingUpdate 7 (.prim "old") ∈
      (setTrap rejectEnv rejectSys 0 "k" (.prim "new")).events := by
  have h := reject_commits_prewrite_and_notifies_reverted rejectEnv rejectSys 0 "k"
    (.prim "new") (.prim "old") 4
    (fun k => if k = "k" then some ⟨[7], [4]⟩ else none) rfl rfl rfl rfl
  exact ⟨rfl, h.1, h.2.1, h.2.2.2 7 (by decide)⟩

/-- A module state with one binding (handle 7), no watchers, on property
k of wrapper 0, stored value "old". -/
def oneBindingSys : Sys :=
  { storage := fun p k => if p = 0 ∧ k = "k" then some (.prim "old") else none,
    registry := fun p =>
      if p = 0 then some (fun k => if k = "k" then some ⟨[7], []⟩ else none) else none,
    heap := fun _ _ => none,
    element_lookup := fun _ => none }

/-- Counterexample for C5: in a successful write with one binding, the
binding render event comes before the commit event — the storage commit
does not precede the binding updates. -/
theorem commit_precedes_bindings_cex :
    (setTrap idEnv oneBindingSys 0 "k" (.prim "v")).error = none ∧
    (setTrap idEnv oneBindingSys 0 "k" (.prim "v")).events =
      [.bindingUpdate 7 (.prim "v"), .commit "k" (.prim "v")] ∧
    commitBeforeBindings (setTrap idEnv oneBindingSys 0 "k" (.prim "v")).events = false :=
  ⟨rfl, rfl, by decide⟩

/-- Claim C5 amended: on a successful intercepted write, the commit to
backing storage is the last step — every binding is rendered with the
committed value before the value is written to storage, and the single
commit event closes the trace. -/
theorem bindings_notified_before_commit
    (env : Env) (sys : Sys) (p : StateId) (k : Key) (v : Value)
    (hok : (setTrap env sys p k v).error = none) :
    ∃ nv, (setTrap env sys p k v).sys.storage p k = some nv ∧
      (setTrap env sys p k v).events.getLast? = some (.commit k nv) ∧
      ∀ e ∈ (setTrap env sys p k v).events.dropLast, isCommit e = false := by
  rcases hreg : sys.registry p with _ | meta
  · simp [setTrap, hreg] at hok
  · simp only [setTrap, hreg] at hok ⊢
    rcases herr : (runWatchers env ((sys.storage p k).getD .undefined) v
        (getPropState meta k).watchers v).2.2 with _ | e
    · simp only [herr]
      refine ⟨(runWatchers env ((sys.storage p k).getD .undefined) v
          (getPropState meta k).watchers v).1, ?_, ?_, ?_⟩
      · simp [setStorage]
      · rw [show ∀ (a b : List Event) (c : Event), a ++ b ++ [c] = (a ++ b) ++ [c] by
          intro a b c; rw [List.append_assoc]]
        exact List.getLast?_concat _
      · rw [show ∀ (a b : List Event) (c : Event), a ++ b ++ [c] = (a ++ b) ++ [c] by
          intro a b c; rw [List.append_assoc]]
        rw [List.dropLast_concat]
        intro e he
        rcases List.mem_append.mp he with he | he
        · rcases runWatchers_events_shape env _ v _ _ _ he with ⟨w', hw'⟩
          subst hw'; rfl
        · rcases List.mem_map.mp he with ⟨t, _, ht⟩
          subst ht; rfl
    · simp only [herr] at hok
      exact absurd hok (by simp)

/-- Witness for the amended C5: in the one-binding scenario the committed
value "v" is stored, the commit is the final event, and the earlier
events contain no commit. -/
theorem bindings_notified_before_commit_witness :
    (setTrap idEnv oneBindingSys 0 "k" (.prim "v")).error = none ∧
    (∃ nv, (setTrap idEnv oneBindingSys 0 "k" (.prim "v")).sys.storage 0 "k" = some nv ∧
      (setTrap idEnv oneBindingSys 0 "k" (.prim "v")).events.getLast? = some (.commit "k" nv) ∧
      ∀ e ∈ (setTrap idEnv oneBindingSys 0 "k" (.prim "v")).events.dropLast,
        isCommit e = false) :=
  ⟨rfl, bindings_notified_before_commit idEnv oneBindingSys 0 "k" (.prim "v") rfl⟩

/-- Claim C6: when a registered watcher throws during the write pipeline,
the exception propagates out of the assignment and the entire backing
storage — in particular the written property — is left exactly at its
pre-write state; nothing is committed or partially transformed. -/
theorem watcher_throw_leaves_storage_unchanged
    (env : Env) (sys : Sys) (p : StateId) (k : Key) (v : Value) (w : WatcherId)
    (hmem : w ∈ watchersOf sys p k)
    (hth : env.wenv w ((sys.storage p k).getD .undefined) v = .throws) :
    (setTrap env sys p k v).error = some .userException ∧
    ∀ (q : StateId) (k' : Key), (setTrap env sys p k v).sys.storage q k' = sys.storage q k' := by
  rcases hreg : sys.registry p with _ | meta
  · simp [watchersOf, hreg] at hmem
  · have hmem' : w ∈ (getPropState meta k).watchers := by
      simpa [watchersOf, hreg] using hmem
    have hrun := runWatchers_throws env ((sys.storage p k).getD .undefined) v
      (getPropState meta k).watchers v ⟨w, hmem', hth⟩
    simp [setTrap, hreg, hrun]

/-- A module state with a single watcher (id 9) on property k of wrapper
0, stored value "keep". -/
def throwSys : Sys :=
  { storage := fun p k => if p = 0 ∧ k = "k" then some (.prim "keep") else none,
    registry := fun p =>
      if p = 0 then some (fun k => if k = "k" then some ⟨[], [9]⟩ else none) else none,
    heap := fun _ _ => none,
    element_lookup := fun _ => none }

/-- Watcher 9 always throws; other watchers are no-ops. -/
def throwEnv : Env :=
  ⟨fun w _ _ => if w = 9 then .throws else .ret .undefined,
   fun _ => none, fun _ => true, fun _ => false⟩

/-- Witness for C6: watcher 9 throws on the write of "bad", the error
propagates, and the stored value is still "keep". -/
theorem watcher_throw_leaves_storage_unchanged_witness :
    9 ∈ watchersOf throwSys 0 "k" ∧
    (setTrap throwEnv throwSys 0 "k" (.prim "bad")).error = some .userException ∧
    (setTrap throwEnv throwSys 0 "k" (.prim "bad")).sys.storage 0 "k" = some (.prim "keep") := by
  have h := watcher_throw_leaves_storage_unchanged throwEnv throwSys 0 "k"
    (.prim "bad") 9 (by decide) rfl
  exact ⟨by decide, h.1, (h.2 0 "k").trans rfl⟩

/-- Object literal for the rebind scenario: a single property foo =
"bar". -/
def rebindFields : PlainFields := .cons "foo" (.prim "bar") .nil

/-- A reactive wrapper built by reactive over the rebind literal. -/
def rebindSysR : Sys := (mkReactive sys0 0 rebindFields).1

/-- Bind handle 7 to property foo of the wrapper, then unbind it. -/
def afterBindUnbind : Except VErr Sys := do
  let s1 ← bind idEnv rebindSysR (.el 7) (.wrap 0) "foo"
  unbind idEnv s1 (.el 7)

/-- The module state after the bind and the unbind. -/
def sysAfterUnbind : Sys :=
  match afterBindUnbind with
  | .ok s => s
  | .error _ => sys0

/-- Claim C3, evaluated at the failing input: handle 7 is bound to foo
and then unbound — the bind-unbind sequence succeeds and afterwards the
binding set for foo is empty — yet a second bind of handle 7 throws
DuplicateBinding, because unbind never deletes the element_lookup record
(the stale record is still present).  The source contradicts its own
documentation, which instructs callers to unbind first in order to
rebind. -/
theorem rebind_after_unbind_raises_duplicate :
    afterBindUnbind.isOk = true ∧
    bindingsOf sysAfterUnbind 0 "foo" = [] ∧
    (sysAfterUnbind.element_lookup 7).isSome = true ∧
    bind idEnv sysAfterUnbind (.el 7) (.wrap 0) "foo" = .error .duplicateBinding :=
  ⟨rfl, rfl, rfl, rfl⟩

/-- Register watcher 5 twice on the same property of the same wrapper. -/
def doubleWatch : Except VErr Sys := do
  let s1 ← watch sampleSys (.wrap 0) "k" 5
  watch s1 (.wrap 0) "k" 5

/-- The module state after both registrations. -/
def doubleWatchSys : Sys :=
  match doubleWatch with
  | .ok s => s
  | .error _ => sys0

/-- Counterexample for C7: registering the same watcher function twice
leaves a single registration (the watcher Set deduplicates by identity),
and a subsequent write invokes it once, not twice. -/
theorem duplicate_watch_invoked_once_cex :
    doubleWatch.isOk = true ∧
    watchersOf doubleWatchSys 0 "k" = [5] ∧
    (setTrap idEnv doubleWatchSys 0 "k" (.prim "y")).events.countP (isCallOf 5) = 1 ∧
    ¬ ((setTrap idEnv doubleWatchSys 0 "k" (.prim "y")).events.countP (isCallOf 5) = 2) :=
  ⟨rfl, rfl, rfl, by decide⟩

/-- Binding renders never count as invocations of a watcher. -/
theorem countP_callOf_map_binding (w : WatcherId) (nv : Value) (bs : List TargetId) :
    List.countP (isCallOf w) (bs.map (fun t => Event.bindingUpdate t nv)) = 0 := by
  induction bs with
  | nil => rfl
  | cons t bs ih => simp [List.countP_cons, isCallOf, ih]

/-- A write to a property whose watcher set is the one-element list [w]
invokes w exactly once, whatever w returns or throws. -/
theorem countP_callOf_trap_single
    (env : Env) (sys : Sys) (p : StateId) (k : Key) (v : Value)
    (meta : Key → Option PropState) (w : WatcherId)
    (hreg : sys.registry p = some meta)
    (hw : (getPropState meta k).watchers = [w]) :
    (setTrap env sys p k v).events.countP (isCallOf w) = 1 := by
  simp only [setTrap, hreg, hw]
  rcases henv : env.wenv w ((sys.storage p k).getD .undefined) v with _ | _ | rv <;>
    simp [runWatchers, henv, isCallOf, List.countP_append, List.countP_cons,
      countP_callOf_map_binding]

/-- Postcondition of a successful watch: storage and heap are untouched
and the registry entry of the resolved wrapper has the callback
Set-added to the watcher set of the leaf key. -/
theorem watch_ok_registry
    (sys : Sys) (stateV : Value) (property : String) (w : WatcherId)
    (p : StateId) (k : Key) (meta : Key → Option PropState) (s' : Sys)
    (hres : resolveState sys stateV property = .ok (.wrap p, k))
    (hreg : sys.registry p = some meta)
    (h : watch sys stateV property w = .ok s') :
    s'.storage = sys.storage ∧ s'.heap = sys.heap ∧
    s'.registry p = some (fun k' => if k' = k then
      some ⟨(getPropState meta k).bindings, setAdd (getPropState meta k).watchers w⟩
      else meta k') := by
  simp only [watch, hres, hreg, Except.ok.injEq] at h
  subst h
  exact ⟨rfl, rfl, by simp⟩

/-- Claim C7 amended: registering the same watcher function twice on the
same property via watch succeeds both times but results in a single
registration — the watcher Set deduplicates by identity — so on a
subsequent write the watcher is invoked exactly once, not once per
registration.  (Distinct watcher functions, however many, all fire.) -/
theorem watch_same_twice_invokes_once
    (sys : Sys) (stateV : Value) (property : String) (w : WatcherId)
    (p : StateId) (k : Key) (meta : Key → Option PropState) (s1 s2 : Sys)
    (hres : resolveState sys stateV property = .ok (.wrap p, k))
    (hreg : sys.registry p = some meta)
    (hemp : (getPropState meta k).watchers = [])
    (h1 : watch sys stateV property w = .ok s1)
    (h2 : watch s1 stateV property w = .ok s2) :
    watchersOf s2 p k = [w] ∧
    ∀ (env : Env) (v : Value),
      (setTrap env s2 p k v).events.countP (isCallOf w) = 1 := by
  obtain ⟨hs1s, hs1h, hs1reg⟩ := watch_ok_registry sys stateV property w p k meta s1
    hres hreg h1
  have hres1 : resolveState s1 stateV property = .ok (.wrap p, k) := by
    rw [resolveState_congr s1 sys stateV property hs1s hs1h]
    exact hres
  obtain ⟨hs2s, hs2h, hs2reg⟩ := watch_ok_registry s1 stateV property w p k _ s2
    hres1 hs1reg h2
  have hemp' : ((meta k).getD PropState.empty).watchers = [] := hemp
  refine ⟨?_, fun env v => countP_callOf_trap_single env s2 p k v _ w hs2reg ?_⟩
  · simp [watchersOf, hs2reg, getPropState, hemp', setAdd]
  · simp [getPropState, hemp', setAdd]

/-- The module state after a single registration of watcher 5. -/
def singleWatchSys : Sys :=
  match watch sampleSys (.wrap 0) "k" 5 with
  | .ok s => s
  | .error _ => sys0

/-- Witness for the amended C7: the concrete double registration of
watcher 5 satisfies the hypotheses and yields one registration and one
invocation. -/
theorem watch_same_twice_invokes_once_witness :
    resolveState sampleSys (.wrap 0) "k" = .ok (.wrap 0, "k") ∧
    watchersOf doubleWatchSys 0 "k" = [5] ∧
    (setTrap idEnv doubleWatchSys 0 "k" (.prim "z")).events.countP (isCallOf 5) = 1 := by
  have h := watch_same_twice_invokes_once sampleSys (.wrap 0) "k" 5 0 "k"
    (fun _ => none) singleWatchSys doubleWatchSys rfl rfl rfl rfl rfl
  exact ⟨rfl, h.1, h.2 idEnv (.prim "z")⟩

/-- Object literal with a nested object: a = ( x = "one" ). -/
def nestedSample : PlainFields := .cons "a" (.pobj (.cons "x" (.prim "one") .nil)) .nil

/-- Claim C9: a plain object assigned to a reactive property after
construction is stored as the object itself, not a wrapper (here with no
watcher interfering on the key), and a subsequent nested write through
that property is an ordinary heap store — no watcher call, no binding
render, no proxy storage change; nested objects present at construction,
by contrast, are recursively wrapped by reactive. -/
theorem post_construction_objects_stay_unwrapped
    (env : Env) (sys : Sys) (p : StateId) (k : Key) (x : Key) (o : ObjId) (v : Value)
    (meta : Key → Option PropState)
    (hreg : sys.registry p = some meta)
    (hw : (getPropState meta k).watchers = []) :
    ((setTrap env sys p k (.obj o)).error = none ∧
     (setTrap env sys p k (.obj o)).sys.storage p k = some (.obj o)) ∧
    (∀ sys2 : Sys, sys2.storage p k = some (.obj o) →
       (assignThrough env sys2 p k x v).events = [] ∧
       (assignThrough env sys2 p k x v).error = none ∧
       (assignThrough env sys2 p k x v).sys.storage = sys2.storage) ∧
    (mkReactive sys0 0 nestedSample).1.storage 0 "a" = some (.wrap 1) := by
  refine ⟨⟨?_, ?_⟩, ?_, rfl⟩
  · simp [setTrap, hreg, hw, runWatchers]
  · simp [setTrap, hreg, hw, runWatchers, setStorage]
  · intro sys2 h2
    simp [assignThrough, h2, setHeap]

/-- Witness for C9: assigning plain object 5 to property k of the sample
wrapper stores object 5 itself, and a nested write through it emits no
events. -/
theorem post_construction_objects_stay_unwrapped_witness :
    sampleSys.registry 0 = some (fun _ => none) ∧
    (setTrap idEnv sampleSys 0 "k" (.obj 5)).error = none ∧
    (setTrap idEnv sampleSys 0 "k" (.obj 5)).sys.storage 0 "k" = some (.obj 5) ∧
    (assignThrough idEnv (setTrap idEnv sampleSys 0 "k" (.obj 5)).sys 0 "k" "x" (.prim "z")).events = [] := by
  have h := post_construction_objects_stay_unwrapped idEnv sampleSys 0 "k" "x" 5
    (.prim "z") (fun _ => none) rfl rfl
  exact ⟨rfl, h.1.1, h.1.2, (h.2.1 _ h.1.2).1⟩

end Vaka
